import Mathlib

/-!
Shallow embedding of the `auth_service` authentication application
(`src/auth_service/security.py`, `src/auth_service/database.py`,
`src/auth_service/__init__.py`) and proofs of the specification claims.

Python strings are modelled as Lean `String`; `bytes` as `List (Fin 256)`;
a raised Python exception as the `.error` constructor of `Except`;
the SQLite tables as in-memory lists; `PARSE_DECLTYPES` timestamps as the
canonical text already produced by `isoformat`.  `hashlib.pbkdf2_hmac`
with a fixed digest is external library code, so it enters the model as an
explicit function parameter `prf : String → Bytes → Nat → Bytes`
(password, salt, iteration count ↦ derived key); likewise the
nondeterministic `os.urandom` salt and `secrets.token_hex` token are
passed in as parameters.
-/

namespace AuthService

/-- A byte, as stored in a Python `bytes` object. -/
abbrev Byte := Fin 256

abbrev Bytes := List Byte

/-- Type of the external key-derivation function
`hashlib.pbkdf2_hmac("sha256", password.encode("utf-8"), salt, iterations)`. -/
abbrev PRF := String → Bytes → Nat → Bytes

/-! ### Python string/byte primitives used by `security.py` -/

/-- Lower-case hex digit for a value below 16, as produced by `bytes.hex()`. -/
def hexChar (n : Fin 16) : Char :=
  if n.val < 10 then Char.ofNat (48 + n.val) else Char.ofNat (87 + n.val)

/-- `bytes.hex()`: two lower-case hex digits per byte. -/
def byteChars (b : Byte) : List Char :=
  [hexChar ⟨b.val / 16, by omega⟩, hexChar ⟨b.val % 16, by omega⟩]

/-- `bytes.hex()` of a whole byte string. -/
def bytesHex (bs : Bytes) : String :=
  String.mk (bs.flatMap byteChars)

/-- Value of a hex digit character, `none` when the character is not a hex
digit (`bytes.fromhex` then raises `ValueError`). -/
def hexDigit (c : Char) : Option (Fin 16) :=
  if h : 48 ≤ c.toNat ∧ c.toNat ≤ 57 then some ⟨c.toNat - 48, by omega⟩
  else if h : 97 ≤ c.toNat ∧ c.toNat ≤ 102 then some ⟨c.toNat - 87, by omega⟩
  else if h : 65 ≤ c.toNat ∧ c.toNat ≤ 70 then some ⟨c.toNat - 55, by omega⟩
  else none

/-- Decode a space-free hex character list two digits at a time. -/
def hexPairs : List Char → Option Bytes
  | [] => some []
  | [_] => none
  | c1 :: c2 :: rest => do
    let d1 ← hexDigit c1
    let d2 ← hexDigit c2
    let tail ← hexPairs rest
    pure (⟨d1.val * 16 + d2.val, by omega⟩ :: tail)

/-- `bytes.fromhex`: spaces between digit pairs are skipped, any other
malformation (odd digit count, non-hex character) yields `none`,
modelling the raised `ValueError`. -/
def bytesFromHex (s : String) : Option Bytes :=
  hexPairs (s.data.filter (fun c => c ≠ ' '))

/-- Python `str.split(sep)` for a one-character separator, on character
lists: every occurrence splits, empty fields are kept
(`"".split("$") == [""]`). -/
def splitOnChar (sep : Char) : List Char → List (List Char)
  | [] => [[]]
  | c :: rest =>
    match splitOnChar sep rest with
    | [] => [[]]
    | h :: t => if c = sep then [] :: h :: t else (c :: h) :: t

/-- Python `int(s)` on the decimal notations relevant here: an optional
sign followed by at least one ASCII digit; anything else raises
`ValueError`, modelled as `none`. -/
def pyInt (s : String) : Option Int :=
  let core : List Char → Option Nat := fun l =>
    if l ≠ [] ∧ l.all Char.isDigit then
      some (l.foldl (fun a c => a * 10 + (c.toNat - 48)) 0)
    else none
  match s.data with
  | '-' :: rest => (core rest).map (fun n => -(n : Int))
  | '+' :: rest => (core rest).map (fun n => (n : Int))
  | l => (core l).map (fun n => (n : Int))

/-! ### `security.py` -/

/-- `hash_password(password, iterations=120_000)`: derive a key from a
fresh 16-byte salt and encode `f"{iterations}${salt.hex()}${derived.hex()}"`.
The random salt is a parameter. -/
def hash_password (prf : PRF) (salt : Bytes) (password : String)
    (iterations : Nat := 120000) : String :=
  toString iterations ++ "$" ++ bytesHex salt ++ "$"
    ++ bytesHex (prf password salt iterations)

/-- `verify_password(stored_hash, password)`.  The `try` block covers only
the split and `int(...)`; `bytes.fromhex` on the salt and hash fields and
the derivation itself run outside it, so their `ValueError`s propagate:
those paths are the `.error` results. -/
def verify_password (prf : PRF) (stored_hash password : String) :
    Except String Bool :=
  match splitOnChar '$' stored_hash.data with
  | [itChars, saltChars, hashChars] =>
    match pyInt (String.mk itChars) with
    | none => .ok false
    | some iterations =>
      match bytesFromHex (String.mk saltChars) with
      | none => .error "ValueError: non-hexadecimal number found in fromhex() arg"
      | some salt =>
        match bytesFromHex (String.mk hashChars) with
        | none => .error "ValueError: non-hexadecimal number found in fromhex() arg"
        | some expected =>
          if iterations ≤ 0 then
            .error "ValueError: iteration value must be greater than 0"
          else
            .ok (prf password salt iterations.toNat = expected)
  | _ => .ok false

/-! ### JSON payloads and responses (`http.py`) -/

/-- A JSON value as decoded by `json.loads` (objects/arrays never occur in
the fields the handlers read, beyond the top level). -/
inductive JValue where
  | null
  | str (s : String)
  | num (n : Int)
  | bool (b : Bool)
  deriving DecidableEq, Repr

/-- A decoded JSON object payload. -/
abbrev Payload := List (String × JValue)

/-- `payload.get(key)`: Python's `dict.get` returns `None` both for an
absent key and for an explicit JSON `null` value, and handler code cannot
tell the two apart. -/
def pyGet (payload : Payload) (key : String) : Option JValue :=
  match payload.lookup key with
  | none => none
  | some .null => none
  | some v => some v

/-- An HTTP response as built by `json_response` plus `add_header`. -/
structure Response where
  status : Nat
  body : Payload
  headers : List (String × String)
  deriving DecidableEq, Repr

/-- `json_response(payload, status)`. -/
def json_response (payload : Payload) (status : Nat := 200) : Response :=
  { status := status
    body := payload
    headers := [("Content-Type", "application/json; charset=utf-8")] }

/-- `Response.add_header`. -/
def addHeader (r : Response) (name value : String) : Response :=
  { r with headers := r.headers ++ [(name, value)] }

/-! ### Data model (`database.py`) -/

/-- A row of the `user` table.  `created_at` carries the canonical text
form (`isoformat`) of the creation timestamp. -/
structure User where
  id : Nat
  username : String
  password_hash : String
  created_at : String
  deriving DecidableEq, Repr

/-- A row of the `session` table (`token` is the primary key). -/
structure Session where
  token : String
  user_id : Nat
  deriving DecidableEq, Repr

/-- The persistent store: both tables plus the `AUTOINCREMENT` counter. -/
structure DB where
  users : List User
  sessions : List Session
  nextId : Nat
  deriving DecidableEq, Repr

/-- `INSERT INTO user ...`: the `UNIQUE` constraint on `username` makes
the insertion fail (`sqlite3.IntegrityError`) when the username is already
present; the application does not pre-check. -/
def insertUser (db : DB) (username password_hash created_at : String) :
    Except Unit DB :=
  if db.users.any (fun u => u.username = username) then .error ()
  else .ok { db with
    users := db.users ++ [⟨db.nextId, username, password_hash, created_at⟩]
    nextId := db.nextId + 1 }

/-- `SELECT id, username, password_hash FROM user WHERE username = ?`
followed by `fetchone()`. -/
def findUser (db : DB) (username : String) : Option User :=
  db.users.find? (fun u => u.username = username)

/-- `INSERT OR REPLACE INTO session (token, user_id)`: keyed on the
primary key `token` — a row with the same token is replaced, rows with
other tokens are untouched. -/
def insertOrReplaceSession (db : DB) (token : String) (user_id : Nat) : DB :=
  { db with
    sessions := db.sessions.filter (fun s => s.token ≠ token) ++ [⟨token, user_id⟩] }

/-- `DELETE FROM session WHERE token = ?`. -/
def deleteSession (db : DB) (token : String) : DB :=
  { db with sessions := db.sessions.filter (fun s => s.token ≠ token) }

/-! ### Validation and handlers (`__init__.py`) -/

/-- Python `str.strip()`: drop leading and trailing whitespace. -/
def pyStrip (s : String) : String :=
  String.mk ((s.data.dropWhile Char.isWhitespace).reverse.dropWhile
    Char.isWhitespace).reverse

/-- The `raw_username` coercion of `_validate_credentials`: `None` becomes
the empty string, text is stripped, anything else raises. -/
def coerceUsername : Option JValue → Except String String
  | none => .ok ""
  | some (.str s) => .ok (pyStrip s)
  | some _ => .error "用户名必须为字符串"

/-- The `raw_password` coercion of `_validate_credentials`: `None` becomes
the empty string, text is kept as is, anything else raises. -/
def coercePassword : Option JValue → Except String String
  | none => .ok ""
  | some (.str s) => .ok s
  | some _ => .error "密码必须为字符串"

/-- `AuthApplication._validate_credentials`.  A raised `ValueError` is the
`.error` case, carrying the message the WSGI layer turns into a 400
response.  The username is coerced first, then the password, then the
emptiness and length checks run in that order. -/
def validate_credentials (payload : Payload) : Except String (String × String) :=
  match coerceUsername (pyGet payload "username") with
  | .error e => .error e
  | .ok username =>
    match coercePassword (pyGet payload "password") with
    | .error e => .error e
    | .ok password =>
      if username = "" then .error "用户名不能为空"
      else if password.length < 6 then .error "密码长度至少为6位"
      else .ok (username, password)

/-- `_register`: validate, hash, insert; `IntegrityError` becomes the 400
duplicate response, a `ValueError` from validation becomes a 400 via the
WSGI handler.  The fresh salt and the row timestamp are parameters. -/
def register (prf : PRF) (salt : Bytes) (now : String) (db : DB)
    (payload : Payload) : Response × DB :=
  match validate_credentials payload with
  | .error e => (json_response [("error", .str e)] 400, db)
  | .ok (username, password) =>
    let password_hash := hash_password prf salt password
    match insertUser db username password_hash now with
    | .error _ => (json_response [("error", .str "用户名已存在")] 400, db)
    | .ok db' =>
      (json_response [("message", .str "注册成功"), ("username", .str username)] 201,
        db')

/-- `_login`: validate, look the user up, verify the password, then store a
fresh session token (a parameter, in place of `secrets.token_hex(32)`) and
set the cookie.  An exception escaping `verify_password` would hit the
generic 500 handler of `__call__`. -/
def login (prf : PRF) (token : String) (db : DB) (payload : Payload) :
    Response × DB :=
  match validate_credentials payload with
  | .error e => (json_response [("error", .str e)] 400, db)
  | .ok (username, password) =>
    match findUser db username with
    | none => (json_response [("error", .str "用户名或密码错误")] 401, db)
    | some user =>
      match verify_password prf user.password_hash password with
      | .error _ => (json_response [("error", .str "服务器内部错误")] 500, db)
      | .ok false => (json_response [("error", .str "用户名或密码错误")] 401, db)
      | .ok true =>
        let db' := insertOrReplaceSession db token user.id
        let response := addHeader
          (json_response [("message", .str "登录成功"), ("username", .str username)])
          "Set-Cookie" ("session=" ++ token ++ "; Path=/; HttpOnly")
        (response, db')

/-- `_logout`: `request.cookies.get("session")` yields `none` when the
cookie is absent; `if token:` also skips the delete for an empty string. -/
def logout (token : Option String) (db : DB) : Response × DB :=
  let db' := match token with
    | some t => if t ≠ "" then deleteSession db t else db
    | none => db
  (addHeader (json_response [("message", .str "登出成功")])
      "Set-Cookie" "session=; Path=/; Max-Age=0",
    db')

/-- `_load_user_from_request`: cookie lookup followed by the
`session JOIN user` query on the token. -/
def load_user (db : DB) (token : Option String) : Option User :=
  match token with
  | none => none
  | some t =>
    if t = "" then none
    else
      match db.sessions.find? (fun s => s.token = t) with
      | none => none
      | some s => db.users.find? (fun u => u.id = s.user_id)

/-- `_current_user`: 401 when no user resolves, otherwise the user's id,
username and canonical-text creation timestamp. -/
def current_user (db : DB) (token : Option String) : Response × DB :=
  match load_user db token with
  | none => (json_response [("error", .str "未登录")] 401, db)
  | some u =>
    (json_response
      [("id", .num u.id), ("username", .str u.username),
        ("created_at", .str u.created_at)],
      db)

/-! ### Supporting lemmas: hex round trip and `$`-splitting -/

theorem hexDigit_hexChar : ∀ n : Fin 16, hexDigit (hexChar n) = some n := by
  decide

theorem hexChar_ne_dollar_space : ∀ n : Fin 16,
    hexChar n ≠ '$' ∧ hexChar n ≠ ' ' := by
  decide

theorem mem_byteChars_ne (b : Byte) (c : Char) (hc : c ∈ byteChars b) :
    c ≠ '$' ∧ c ≠ ' ' := by
  simp only [byteChars, List.mem_cons, List.not_mem_nil, or_false] at hc
  rcases hc with rfl | rfl
  · exact hexChar_ne_dollar_space _
  · exact hexChar_ne_dollar_space _

theorem hexPairs_flatMap (bs : Bytes) :
    hexPairs (bs.flatMap byteChars) = some bs := by
  induction bs with
  | nil => rfl
  | cons b rest ih =>
    show hexPairs (byteChars b ++ rest.flatMap byteChars) = some (b :: rest)
    have hb : b.val / 16 * 16 + b.val % 16 = b.val := by omega
    simp [byteChars, hexPairs, hexDigit_hexChar, ih, Fin.ext_iff, hb]

theorem filter_flatMap_byteChars (bs : Bytes) :
    (bs.flatMap byteChars).filter (fun c => c ≠ ' ') = bs.flatMap byteChars := by
  apply List.filter_eq_self.mpr
  intro c hc
  obtain ⟨b, _, hcb⟩ := List.mem_flatMap.mp hc
  simpa using (mem_byteChars_ne b c hcb).2

theorem bytesFromHex_bytesHex (bs : Bytes) :
    bytesFromHex (bytesHex bs) = some bs := by
  show hexPairs ((bs.flatMap byteChars).filter (fun c => c ≠ ' ')) = some bs
  rw [filter_flatMap_byteChars]
  exact hexPairs_flatMap bs

theorem splitOnChar_ne_nil (sep : Char) (l : List Char) :
    splitOnChar sep l ≠ [] := by
  cases l with
  | nil => simp [splitOnChar]
  | cons c rest =>
    unfold splitOnChar
    cases h : splitOnChar sep rest with
    | nil => simp
    | cons a t => by_cases hc : c = sep <;> simp [hc]

theorem splitOnChar_of_not_mem (sep : Char) (l : List Char) (h : sep ∉ l) :
    splitOnChar sep l = [l] := by
  induction l with
  | nil => rfl
  | cons c rest ih =>
    have hc : c ≠ sep := by rintro rfl; exact h (List.mem_cons_self _ _)
    have hrest : sep ∉ rest := fun hm => h (List.mem_cons_of_mem _ hm)
    simp [splitOnChar, ih hrest, hc]

theorem splitOnChar_append (sep : Char) (A rest : List Char) (h : sep ∉ A) :
    splitOnChar sep (A ++ sep :: rest) = A :: splitOnChar sep rest := by
  induction A with
  | nil =>
    obtain ⟨a, t, heq⟩ := List.exists_cons_of_ne_nil (splitOnChar_ne_nil sep rest)
    simp [splitOnChar, heq]
  | cons c A ih =>
    have hc : c ≠ sep := by rintro rfl; exact h (List.mem_cons_self _ _)
    have hA : sep ∉ A := fun hm => h (List.mem_cons_of_mem _ hm)
    simp [splitOnChar, ih hA, hc]

theorem dollar_not_mem_bytesHex (bs : Bytes) : '$' ∉ (bytesHex bs).data := by
  intro hm
  obtain ⟨b, _, hcb⟩ := List.mem_flatMap.mp hm
  exact (mem_byteChars_ne b _ hcb).1 rfl

theorem splitOnChar_hash_password (prf : PRF) (salt : Bytes) (p : String) :
    splitOnChar '$' (hash_password prf salt p).data =
      [(toString 120000).data, (bytesHex salt).data,
        (bytesHex (prf p salt 120000)).data] := by
  have hdata : (hash_password prf salt p).data =
      (toString 120000).data ++ '$' ::
        ((bytesHex salt).data ++ '$' :: (bytesHex (prf p salt 120000)).data) := by
    simp [hash_password, String.data_append]
  rw [hdata]
  rw [splitOnChar_append _ _ _ (by decide)]
  rw [splitOnChar_append _ _ _ (dollar_not_mem_bytesHex salt)]
  rw [splitOnChar_of_not_mem _ _ (dollar_not_mem_bytesHex _)]

/-- The verifier re-derives the key from the parsed salt and iteration
count, so a freshly produced hash always verifies against its own
password. -/
theorem verify_hash_self (prf : PRF) (salt : Bytes) (p : String) :
    verify_password prf (hash_password prf salt p) p = .ok true := by
  have hsplit := splitOnChar_hash_password prf salt p
  have hint : pyInt (String.mk (toString 120000).data) = some 120000 := by decide
  have h1 : bytesFromHex (String.mk (bytesHex salt).data) = some salt :=
    bytesFromHex_bytesHex salt
  have h2 : bytesFromHex (String.mk (bytesHex (prf p salt 120000)).data) =
      some (prf p salt 120000) := bytesFromHex_bytesHex _
  simp [verify_password, hsplit, hint, h1, h2]

/-- When the derived keys of two passwords differ (the KDF has no
collision on this pair), verification of one password against the other's
hash computes to `false`. -/
theorem verify_hash_other (prf : PRF) (salt : Bytes) (p q : String)
    (hne : prf q salt 120000 ≠ prf p salt 120000) :
    verify_password prf (hash_password prf salt p) q = .ok false := by
  have hsplit := splitOnChar_hash_password prf salt p
  have hint : pyInt (String.mk (toString 120000).data) = some 120000 := by decide
  have h1 : bytesFromHex (String.mk (bytesHex salt).data) = some salt :=
    bytesFromHex_bytesHex salt
  have h2 : bytesFromHex (String.mk (bytesHex (prf p salt 120000)).data) =
      some (prf p salt 120000) := bytesFromHex_bytesHex _
  simp [verify_password, hsplit, hint, h1, h2, hne]

/-! ### Supporting lemmas: credential validation -/

/-- The `username` field coerces (without raising) to the trimmed string
`u`: the field is absent or JSON `null` and `u = ""`, or it is text and
`u` is its stripped form. -/
def usernameCoercesTo (pl : Payload) (u : String) : Prop :=
  (pyGet pl "username" = none ∧ u = "") ∨
    ∃ s, pyGet pl "username" = some (.str s) ∧ u = pyStrip s

/-- The `password` field coerces (without raising) to the string `p`. -/
def passwordCoercesTo (pl : Payload) (p : String) : Prop :=
  (pyGet pl "password" = none ∧ p = "") ∨ pyGet pl "password" = some (.str p)

theorem validate_username_type_error (pl : Payload) (v : JValue)
    (hv : pyGet pl "username" = some v) (hnotstr : ∀ s, v ≠ .str s) :
    validate_credentials pl = .error "用户名必须为字符串" := by
  unfold validate_credentials
  rw [hv]
  cases v with
  | str s => exact absurd rfl (hnotstr s)
  | null => rfl
  | num n => rfl
  | bool b => rfl

theorem validate_password_type_error (pl : Payload) (u : String)
    (hu : usernameCoercesTo pl u) (v : JValue)
    (hv : pyGet pl "password" = some v) (hnotstr : ∀ s, v ≠ .str s) :
    validate_credentials pl = .error "密码必须为字符串" := by
  unfold validate_credentials
  rcases hu with ⟨he, _⟩ | ⟨s, he, _⟩ <;> rw [he, hv] <;>
    cases v with
    | str s => exact absurd rfl (hnotstr s)
    | null => rfl
    | num n => rfl
    | bool b => rfl

theorem validate_empty_username (pl : Payload) (u p : String)
    (hu : usernameCoercesTo pl u) (hue : u = "")
    (hp : passwordCoercesTo pl p) :
    validate_credentials pl = .error "用户名不能为空" := by
  unfold validate_credentials
  rcases hu with ⟨he, hv⟩ | ⟨s, he, hv⟩ <;> subst hv <;>
    rcases hp with ⟨hpe, hpv⟩ | hpe <;>
      rw [he, hpe] <;>
        simp_all [coerceUsername, coercePassword]

theorem validate_weak_password (pl : Payload) (u p : String)
    (hu : usernameCoercesTo pl u) (hue : u ≠ "")
    (hp : passwordCoercesTo pl p) (hlen : p.length < 6) :
    validate_credentials pl = .error "密码长度至少为6位" := by
  unfold validate_credentials
  rcases hu with ⟨he, hv⟩ | ⟨s, he, hv⟩
  · exact absurd hv hue
  · subst hv
    rcases hp with ⟨hpe, hpv⟩ | hpe <;> rw [he, hpe] <;>
      simp_all [coerceUsername, coercePassword]

theorem validate_accepts (pl : Payload) (u p : String)
    (hu : usernameCoercesTo pl u) (hue : u ≠ "")
    (hp : passwordCoercesTo pl p) (hlen : 6 ≤ p.length) :
    validate_credentials pl = .ok (u, p) := by
  unfold validate_credentials
  rcases hu with ⟨he, hv⟩ | ⟨s, he, hv⟩
  · exact absurd hv hue
  · subst hv
    rcases hp with ⟨hpe, hpv⟩ | hpe <;> rw [he, hpe] <;>
      simp_all [coerceUsername, coercePassword, Nat.not_lt.mpr hlen]

/-! ### Supporting lemmas: handlers -/

/-- A concrete stand-in for the external key-derivation function, used
only to evaluate the handlers at specific inputs: the byte sequence of
the password's characters. -/
def samplePrf : PRF := fun p _ _ =>
  p.data.map (fun c => (⟨c.toNat % 256, Nat.mod_lt _ (by omega)⟩ : Fin 256))

/-- The JSON object `{"username": w, "password": p}`. -/
def credPayload (w p : String) : Payload :=
  [("username", .str w), ("password", .str p)]

theorem pyGet_credPayload_username (w p : String) :
    pyGet (credPayload w p) "username" = some (.str w) := rfl

theorem pyGet_credPayload_password (w p : String) :
    pyGet (credPayload w p) "password" = some (.str p) := rfl

theorem validate_credPayload (w p : String) (hw : pyStrip w ≠ "")
    (hp : 6 ≤ p.length) :
    validate_credentials (credPayload w p) = .ok (pyStrip w, p) :=
  validate_accepts _ _ _
    (Or.inr ⟨w, pyGet_credPayload_username w p, rfl⟩) hw
    (Or.inr (pyGet_credPayload_password w p)) hp

/-- A login attempt that passes validation but hits a missing user or a
failing verification produces the single 401 response and leaves the
store untouched. -/
theorem login_rejected (prf : PRF) (tok : String) (db : DB) (pl : Payload)
    (u p : String) (hv : validate_credentials pl = .ok (u, p))
    (hr : findUser db u = none ∨ ∃ user, findUser db u = some user ∧
      verify_password prf user.password_hash p = .ok false) :
    login prf tok db pl =
      (json_response [("error", .str "用户名或密码错误")] 401, db) := by
  rcases hr with hf | ⟨user, hf, hverify⟩
  · simp [login, hv, hf]
  · simp [login, hv, hf, hverify]

/-- A login attempt that passes validation, finds the user and verifies
the password returns the success response and stores the fresh token. -/
theorem login_accepted (prf : PRF) (tok : String) (db : DB) (pl : Payload)
    (u p : String) (user : User)
    (hv : validate_credentials pl = .ok (u, p))
    (hf : findUser db u = some user)
    (hok : verify_password prf user.password_hash p = .ok true) :
    login prf tok db pl =
      (addHeader
        (json_response [("message", .str "登录成功"), ("username", .str u)])
        "Set-Cookie" ("session=" ++ tok ++ "; Path=/; HttpOnly"),
       insertOrReplaceSession db tok user.id) := by
  simp [login, hv, hf, hok]

/-- A registration whose username is already taken fails on the store's
uniqueness constraint with the duplicate response and leaves the store
untouched. -/
theorem register_duplicate (prf : PRF) (salt : Bytes) (now : String)
    (db : DB) (pl : Payload) (u p : String)
    (hv : validate_credentials pl = .ok (u, p))
    (hdup : ∃ user ∈ db.users, user.username = u) :
    register prf salt now db pl =
      (json_response [("error", .str "用户名已存在")] 400, db) := by
  have hany : db.users.any (fun x => x.username = u) = true := by
    obtain ⟨user, hm, he⟩ := hdup
    exact List.any_eq_true.mpr ⟨user, hm, by simp [he]⟩
  simp [register, hv, insertUser, hany]

/-- A registration with a fresh username inserts exactly one row carrying
the next id, the validated username and the freshly produced hash. -/
theorem register_fresh (prf : PRF) (salt : Bytes) (now : String)
    (db : DB) (pl : Payload) (u p : String)
    (hv : validate_credentials pl = .ok (u, p))
    (hfresh : ∀ user ∈ db.users, user.username ≠ u) :
    register prf salt now db pl =
      (json_response [("message", .str "注册成功"), ("username", .str u)] 201,
       { db with
          users := db.users ++ [⟨db.nextId, u, hash_password prf salt p, now⟩]
          nextId := db.nextId + 1 }) := by
  have hany : db.users.any (fun x => x.username = u) = false := by
    simp only [List.any_eq_false, decide_eq_true_eq]
    exact hfresh
  simp [register, hv, insertUser, hany]

/-- The logout acknowledgement is one fixed 200 response with the
cookie-clearing instruction, whatever the request and store state. -/
theorem logout_response (db : DB) (tok : Option String) :
    (logout tok db).1 =
      addHeader (json_response [("message", .str "登出成功")])
        "Set-Cookie" "session=; Path=/; Max-Age=0" := rfl

/-- Deleting a session token makes the token stop resolving. -/
theorem load_user_after_delete (db : DB) (t : String) :
    load_user (deleteSession db t) (some t) = none := by
  by_cases ht : t = ""
  · simp [load_user, deleteSession, ht]
  · have hfind : (db.sessions.filter (fun s => s.token ≠ t)).find?
        (fun s => s.token = t) = none := by
      rw [List.find?_eq_none]
      intro s hs
      have := List.of_mem_filter hs
      simpa using this
    simp only [load_user, deleteSession]
    rw [if_neg ht, hfind]

/-- `load_user` resolves exactly the non-empty tokens that reach a session
row joined to a user row, provided session tokens are pairwise distinct
(the `PRIMARY KEY` invariant of the `session` table). -/
theorem load_user_eq_none_iff (db : DB) (tok : Option String)
    (htok : (db.sessions.map Session.token).Nodup) :
    load_user db tok = none ↔
      ¬ ∃ t, tok = some t ∧ t ≠ "" ∧ ∃ s ∈ db.sessions, s.token = t ∧
        ∃ u ∈ db.users, u.id = s.user_id := by
  cases tok with
  | none => simp [load_user]
  | some t =>
    by_cases ht : t = ""
    · simp [load_user, ht]
    · rw [show (∃ t2, some t = some t2 ∧ t2 ≠ "" ∧ ∃ s ∈ db.sessions,
          s.token = t2 ∧ ∃ u ∈ db.users, u.id = s.user_id) ↔
          (∃ s ∈ db.sessions, s.token = t ∧ ∃ u ∈ db.users, u.id = s.user_id)
          from by simp [ht]]
      simp only [load_user]
      rw [if_neg ht]
      cases hf : db.sessions.find? (fun s => s.token = t) with
      | none =>
        have hno := List.find?_eq_none.mp hf
        constructor
        · rintro _ ⟨s, hs, hst, _⟩
          exact absurd (by simp [hst]) (hno s hs)
        · intro _
          rfl
      | some s0 =>
        have hs0t : s0.token = t := by simpa using List.find?_some hf
        have hs0mem : s0 ∈ db.sessions := List.mem_of_find?_eq_some hf
        constructor
        · intro hu
          rintro ⟨s1, hs1, hs1t, u, humem, huid⟩
          have : s1 = s0 :=
            List.inj_on_of_nodup_map htok hs1 hs0mem (by rw [hs1t, hs0t])
          subst this
          have := List.find?_eq_none.mp hu u humem
          simp [huid] at this
        · intro hno
          rw [List.find?_eq_none]
          intro u humem
          simp only [decide_eq_true_eq]
          intro huid
          exact hno ⟨s0, hs0mem, hs0t, u, humem, huid⟩

/-- The 401 response of `current_user` appears exactly when no user
resolves from the request. -/
theorem current_user_401_iff (db : DB) (tok : Option String) :
    (current_user db tok).1 = json_response [("error", .str "未登录")] 401 ↔
      load_user db tok = none := by
  cases hl : load_user db tok <;> simp [current_user, hl, json_response]

/-! ### Claims -/

/-- C1: the claim says `verify_password` returns `false` and never raises
on every malformed stored hash.  That holds for a wrong field count and a
non-numeric iteration count, but for malformed hex in the salt or hash
field the `bytes.fromhex` calls sit outside the `try` block and the
`ValueError` escapes to the caller: the last two conjuncts evaluate the
code at such inputs and show the raised exception. -/
theorem C1_verify_password_parse_failures :
    verify_password samplePrf "pbkdf2sha256" "pw" = .ok false ∧
    verify_password samplePrf "1$00$00$00" "pw" = .ok false ∧
    verify_password samplePrf "iterations$00$00" "pw" = .ok false ∧
    verify_password samplePrf "1$zz$00" "pw" =
      .error "ValueError: non-hexadecimal number found in fromhex() arg" ∧
    verify_password samplePrf "1$00$zz" "pw" =
      .error "ValueError: non-hexadecimal number found in fromhex() arg" :=
  ⟨rfl, rfl, rfl, rfl, rfl⟩

/-- C2: whenever a login passes validation but the username is not in the
user store, or it is but the stored hash does not verify against the
supplied password, the full response (status, body and headers) is one and
the same 401 failure, so the two causes are indistinguishable. -/
theorem C2_login_failure_indistinguishable (prf : PRF) (tok tok2 : String)
    (db db2 : DB) (pl pl2 : Payload) (u p u2 p2 : String)
    (hv : validate_credentials pl = .ok (u, p))
    (hv2 : validate_credentials pl2 = .ok (u2, p2))
    (hr : findUser db u = none ∨ ∃ user, findUser db u = some user ∧
      verify_password prf user.password_hash p = .ok false)
    (hr2 : findUser db2 u2 = none ∨ ∃ user, findUser db2 u2 = some user ∧
      verify_password prf user.password_hash p2 = .ok false) :
    (login prf tok db pl).1 = (login prf tok2 db2 pl2).1 ∧
    (login prf tok db pl).1 =
      json_response [("error", .str "用户名或密码错误")] 401 := by
  have e1 := login_rejected prf tok db pl u p hv hr
  have e2 := login_rejected prf tok2 db2 pl2 u2 p2 hv2 hr2
  rw [e1, e2]
  exact ⟨rfl, rfl⟩

/-- C2 witness: a login for an unregistered name and a login with the
wrong password for a registered name produce the identical 401 result. -/
theorem C2_witness :
    (login samplePrf "tk1"
      ⟨[⟨1, "alice", hash_password samplePrf [] "secret1",
          "2024-01-01 00:00:00"⟩], [], 2⟩
      (credPayload "alice" "wrongpass")).1 =
    (login samplePrf "tk2" ⟨[], [], 1⟩ (credPayload "bob" "hunter22")).1 :=
  (C2_login_failure_indistinguishable samplePrf "tk1" "tk2"
    ⟨[⟨1, "alice", hash_password samplePrf [] "secret1",
        "2024-01-01 00:00:00"⟩], [], 2⟩
    ⟨[], [], 1⟩
    (credPayload "alice" "wrongpass") (credPayload "bob" "hunter22")
    "alice" "wrongpass" "bob" "hunter22"
    rfl rfl
    (Or.inr ⟨⟨1, "alice", hash_password samplePrf [] "secret1",
        "2024-01-01 00:00:00"⟩, by decide, rfl⟩)
    (Or.inl (by decide))).1

/-- C3: a freshly produced hash verifies against its own password; and a
hash of `p1` does not verify against `p2 ≠ p1`, given that the derived
keys of the two passwords differ for the used salt and iteration count
(the collision-freeness the key-derivation function is relied on for). -/
theorem C3_hash_verify_round_trip (prf : PRF) (salt : Bytes) (p p1 p2 : String)
    (_hne : p1 ≠ p2)
    (hcol : prf p2 salt 120000 ≠ prf p1 salt 120000) :
    verify_password prf (hash_password prf salt p) p = .ok true ∧
    verify_password prf (hash_password prf salt p1) p2 = .ok false :=
  ⟨verify_hash_self prf salt p, verify_hash_other prf salt p1 p2 hcol⟩

/-- C3 witness: the round trip at concrete passwords. -/
theorem C3_witness :
    verify_password samplePrf (hash_password samplePrf [] "secret1")
      "secret1" = .ok true ∧
    verify_password samplePrf (hash_password samplePrf [] "secret1")
      "secret2" = .ok false :=
  C3_hash_verify_round_trip samplePrf [] "secret1" "secret1" "secret2"
    (by decide) (by decide)

/-- C4: credential validation treats an absent or null field as the empty
string, rejects non-textual fields with the type error, rejects a
whitespace-trimmed-empty username, rejects a password shorter than six
characters, and accepts otherwise, returning the trimmed username and the
untouched password. -/
theorem C4_validate_credentials_policy (pl : Payload) :
    (∀ v, pyGet pl "username" = some v → (∀ s, v ≠ .str s) →
      validate_credentials pl = .error "用户名必须为字符串") ∧
    (∀ u, usernameCoercesTo pl u → ∀ v, pyGet pl "password" = some v →
      (∀ s, v ≠ .str s) →
      validate_credentials pl = .error "密码必须为字符串") ∧
    (∀ u pw, usernameCoercesTo pl u → u = "" → passwordCoercesTo pl pw →
      validate_credentials pl = .error "用户名不能为空") ∧
    (∀ u pw, usernameCoercesTo pl u → u ≠ "" → passwordCoercesTo pl pw →
      pw.length < 6 →
      validate_credentials pl = .error "密码长度至少为6位") ∧
    (∀ u pw, usernameCoercesTo pl u → u ≠ "" → passwordCoercesTo pl pw →
      6 ≤ pw.length → validate_credentials pl = .ok (u, pw)) :=
  ⟨fun v hv hn => validate_username_type_error pl v hv hn,
   fun u hu v hv hn => validate_password_type_error pl u hu v hv hn,
   fun u pw hu hue hp => validate_empty_username pl u pw hu hue hp,
   fun u pw hu hue hp hl => validate_weak_password pl u pw hu hue hp hl,
   fun u pw hu hue hp hl => validate_accepts pl u pw hu hue hp hl⟩

/-- C4 witness: the six-character boundary, counted in characters of a
multi-byte text, and trimming of the accepted username. -/
theorem C4_witness :
    validate_credentials (credPayload "bob" "1234é") =
      .error "密码长度至少为6位" ∧
    validate_credentials (credPayload " bob " "12345é") =
      .ok ("bob", "12345é") :=
  ⟨(C4_validate_credentials_policy (credPayload "bob" "1234é")).2.2.2.1
      "bob" "1234é" (Or.inr ⟨"bob", rfl, by decide⟩) (by decide)
      (Or.inr rfl) (by decide),
   (C4_validate_credentials_policy (credPayload " bob " "12345é")).2.2.2.2
      "bob" "12345é" (Or.inr ⟨" bob ", rfl, by decide⟩) (by decide)
      (Or.inr rfl) (by decide)⟩

/-- C5: registering an already-present username fails on the store-level
uniqueness constraint with the user-facing duplicate error and leaves the
store — the original account's row included — exactly as it was. -/
theorem C5_duplicate_register_rejected (prf : PRF) (salt : Bytes)
    (now : String) (db : DB) (pl : Payload) (u p : String)
    (hv : validate_credentials pl = .ok (u, p))
    (hdup : ∃ user ∈ db.users, user.username = u) :
    register prf salt now db pl =
      (json_response [("error", .str "用户名已存在")] 400, db) :=
  register_duplicate prf salt now db pl u p hv hdup

/-- C5 witness: re-registering `alice` fails with the duplicate response
and leaves the store unchanged. -/
theorem C5_witness :
    register samplePrf [] "2024-01-02 00:00:00"
      ⟨[⟨1, "alice", hash_password samplePrf [] "secret1",
          "2024-01-01 00:00:00"⟩], [], 2⟩
      (credPayload "alice" "secret2") =
      (json_response [("error", .str "用户名已存在")] 400,
       ⟨[⟨1, "alice", hash_password samplePrf [] "secret1",
           "2024-01-01 00:00:00"⟩], [], 2⟩) :=
  C5_duplicate_register_rejected samplePrf [] "2024-01-02 00:00:00"
    ⟨[⟨1, "alice", hash_password samplePrf [] "secret1",
        "2024-01-01 00:00:00"⟩], [], 2⟩
    (credPayload "alice" "secret2") "alice" "secret2"
    rfl
    ⟨⟨1, "alice", hash_password samplePrf [] "secret1",
        "2024-01-01 00:00:00"⟩, by decide, by decide⟩

/-- Shape of `logout` when a non-empty token is presented. -/
theorem logout_eq (db : DB) (t : String) (ht : t ≠ "") :
    logout (some t) db =
      (addHeader (json_response [("message", .str "登出成功")])
        "Set-Cookie" "session=; Path=/; Max-Age=0", deleteSession db t) := by
  simp [logout, ht]

/-- C6: logout always produces the same 200 acknowledgement with the
cookie-clearing instruction; a presented non-empty token is deleted from
the session store, the user table is never touched, an absent or unknown
token leaves the store exactly as it was, and running logout twice equals
running it once. -/
theorem C6_logout_always_succeeds (db : DB) (tok : Option String) :
    (logout tok db).1 =
      addHeader (json_response [("message", .str "登出成功")])
        "Set-Cookie" "session=; Path=/; Max-Age=0" ∧
    (logout tok db).1.status = 200 ∧
    (logout tok db).2.users = db.users ∧
    (∀ t, tok = some t → t ≠ "" →
      (logout tok db).2.sessions =
        db.sessions.filter (fun s => s.token ≠ t)) ∧
    ((∀ t, tok = some t → ∀ s ∈ db.sessions, s.token ≠ t) →
      (logout tok db).2 = db) ∧
    logout tok (logout tok db).2 = logout tok db := by
  refine ⟨rfl, rfl, ?_, ?_, ?_, ?_⟩
  · cases tok with
    | none => rfl
    | some t => by_cases ht : t = "" <;> simp [logout, deleteSession, ht]
  · rintro t rfl ht
    simp [logout, deleteSession, ht]
  · intro hno
    cases tok with
    | none => rfl
    | some t =>
      by_cases ht : t = ""
      · simp [logout, ht]
      · have hfilter : db.sessions.filter (fun s => s.token ≠ t) =
            db.sessions := by
          rw [List.filter_eq_self]
          intro s hs
          simpa using hno t rfl s hs
        have hds : deleteSession db t = db := by
          unfold deleteSession
          rw [hfilter]
        simp [logout, ht, hds]
  · cases tok with
    | none => rfl
    | some t =>
      by_cases ht : t = ""
      · simp [logout, ht]
      · have hidem : (db.sessions.filter (fun s => s.token ≠ t)).filter
            (fun s => s.token ≠ t) =
              db.sessions.filter (fun s => s.token ≠ t) := by
          rw [List.filter_eq_self]
          intro s hs
          exact (List.mem_filter.mp hs).2
        have hds : deleteSession (deleteSession db t) t = deleteSession db t := by
          simp only [deleteSession]
          rw [hidem]
        simp only [logout_eq db t ht, logout_eq (deleteSession db t) t ht, hds]

/-- C6 witness: logging out with a token that is in no session row leaves
the store unchanged. -/
theorem C6_witness :
    (logout (some "ghost") (⟨[], [⟨"t1", 1⟩], 1⟩ : DB)).2 =
      (⟨[], [⟨"t1", 1⟩], 1⟩ : DB) :=
  (C6_logout_always_succeeds ⟨[], [⟨"t1", 1⟩], 1⟩ (some "ghost")).2.2.2.2.1
    (by
      intro t ht
      injection ht with h
      subst h
      decide)

/-- C7: `current_user` answers with the 401 failure exactly when the
request carries no non-empty session token that reaches a session row
joined to a user row (assuming the primary-key uniqueness of tokens);
when a user resolves, it returns that user's id, username and canonical
creation timestamp; and once logout has deleted a token, a `current_user`
request presenting it gets the 401 failure. -/
theorem C7_current_user_resolution (db : DB) (tok : Option String)
    (htok : (db.sessions.map Session.token).Nodup) :
    ((current_user db tok).1 = json_response [("error", .str "未登录")] 401 ↔
      ¬ ∃ t, tok = some t ∧ t ≠ "" ∧ ∃ s ∈ db.sessions, s.token = t ∧
        ∃ u ∈ db.users, u.id = s.user_id) ∧
    (∀ u, load_user db tok = some u →
      (current_user db tok).1 =
        json_response [("id", .num u.id), ("username", .str u.username),
          ("created_at", .str u.created_at)] 200) ∧
    (∀ t, t ≠ "" →
      (current_user (logout (some t) db).2 (some t)).1 =
        json_response [("error", .str "未登录")] 401) := by
  refine ⟨(current_user_401_iff db tok).trans
    (load_user_eq_none_iff db tok htok), ?_, ?_⟩
  · intro u hl
    simp [current_user, hl]
  · intro t ht
    have hdel : (logout (some t) db).2 = deleteSession db t := by
      simp [logout, ht]
    rw [hdel]
    exact (current_user_401_iff _ _).mpr (load_user_after_delete db t)

/-- C7 witness: after logout deletes the session token, `current_user`
with that token fails with the 401 response. -/
theorem C7_witness :
    (current_user
      (logout (some "tk")
        (⟨[⟨1, "alice", "h", "2024-01-01 00:00:00"⟩], [⟨"tk", 1⟩], 2⟩ : DB)).2
      (some "tk")).1 = json_response [("error", .str "未登录")] 401 :=
  (C7_current_user_resolution
    ⟨[⟨1, "alice", "h", "2024-01-01 00:00:00"⟩], [⟨"tk", 1⟩], 2⟩
    (some "tk") (by decide)).2.2 "tk" (by decide)

/-- C8: the handlers see only the whitespace-trimmed username: register
stores the trimmed form, a padded variant of a taken username is rejected
as a duplicate, and login with a padded variant of a registered username
and its correct password succeeds. -/
theorem C8_whitespace_padded_usernames (prf : PRF) (salt : Bytes)
    (now tok : String) (db : DB) (w p : String)
    (hw : pyStrip w ≠ "") (hp : 6 ≤ p.length) :
    ((∀ user ∈ db.users, user.username ≠ pyStrip w) →
      register prf salt now db (credPayload w p) =
        (json_response [("message", .str "注册成功"),
            ("username", .str (pyStrip w))] 201,
         { db with
            users := db.users ++ [⟨db.nextId, pyStrip w,
              hash_password prf salt p, now⟩]
            nextId := db.nextId + 1 })) ∧
    ((∃ user ∈ db.users, user.username = pyStrip w) →
      register prf salt now db (credPayload w p) =
        (json_response [("error", .str "用户名已存在")] 400, db)) ∧
    (∀ user, findUser db (pyStrip w) = some user →
      user.password_hash = hash_password prf salt p →
      (login prf tok db (credPayload w p)).1.status = 200) := by
  have hv := validate_credPayload w p hw hp
  refine ⟨fun hfresh => register_fresh prf salt now db _ _ p hv hfresh,
    fun hdup => register_duplicate prf salt now db _ _ p hv hdup,
    fun user hfind hhash => ?_⟩
  have hok : verify_password prf user.password_hash p = .ok true := by
    rw [hhash]
    exact verify_hash_self prf salt p
  rw [login_accepted prf tok db _ _ p user hv hfind hok]
  rfl

/-- C8 witness: with `alice` registered, registering `" alice "` is
rejected as a duplicate, and logging in as `" alice "` with the correct
password succeeds. -/
theorem C8_witness :
    register samplePrf [] "2024-01-02 00:00:00"
      (⟨[⟨1, "alice", hash_password samplePrf [] "secret1",
          "2024-01-01 00:00:00"⟩], [], 2⟩ : DB)
      (credPayload " alice " "secret2") =
      (json_response [("error", .str "用户名已存在")] 400,
       ⟨[⟨1, "alice", hash_password samplePrf [] "secret1",
           "2024-01-01 00:00:00"⟩], [], 2⟩) ∧
    (login samplePrf "tk"
      (⟨[⟨1, "alice", hash_password samplePrf [] "secret1",
          "2024-01-01 00:00:00"⟩], [], 2⟩ : DB)
      (credPayload " alice " "secret1")).1.status = 200 :=
  ⟨(C8_whitespace_padded_usernames samplePrf [] "2024-01-02 00:00:00" "tk"
      ⟨[⟨1, "alice", hash_password samplePrf [] "secret1",
          "2024-01-01 00:00:00"⟩], [], 2⟩
      " alice " "secret2" (by decide) (by decide)).2.1
      ⟨⟨1, "alice", hash_password samplePrf [] "secret1",
          "2024-01-01 00:00:00"⟩, by decide, by decide⟩,
   (C8_whitespace_padded_usernames samplePrf [] "2024-01-02 00:00:00" "tk"
      ⟨[⟨1, "alice", hash_password samplePrf [] "secret1",
          "2024-01-01 00:00:00"⟩], [], 2⟩
      " alice " "secret1" (by decide) (by decide)).2.2
      ⟨1, "alice", hash_password samplePrf [] "secret1",
          "2024-01-01 00:00:00"⟩ (by decide) rfl⟩

/-- C9: a successful login with a fresh token appends exactly one session
row for that token, touches no user row, leaves the resolution of every
other token unchanged (prior sessions stay valid and still reach their
user), and makes the new token resolve to the logged-in user's row. -/
theorem C9_login_appends_session (prf : PRF) (tok : String) (db : DB)
    (pl : Payload) (u p : String) (user : User)
    (hv : validate_credentials pl = .ok (u, p))
    (hf : findUser db u = some user)
    (hok : verify_password prf user.password_hash p = .ok true)
    (hfresh : ∀ s ∈ db.sessions, s.token ≠ tok)
    (htokne : tok ≠ "") :
    (login prf tok db pl).2.sessions = db.sessions ++ [⟨tok, user.id⟩] ∧
    (login prf tok db pl).2.users = db.users ∧
    (∀ t, t ≠ tok →
      load_user (login prf tok db pl).2 (some t) = load_user db (some t)) ∧
    load_user (login prf tok db pl).2 (some tok) =
      db.users.find? (fun x => x.id = user.id) := by
  have hlogin := login_accepted prf tok db pl u p user hv hf hok
  have hfilter : db.sessions.filter (fun s => s.token ≠ tok) = db.sessions := by
    rw [List.filter_eq_self]
    intro s hs
    simpa using hfresh s hs
  have hsess : (login prf tok db pl).2.sessions =
      db.sessions ++ [⟨tok, user.id⟩] := by
    rw [hlogin]
    show db.sessions.filter (fun s => s.token ≠ tok) ++ [⟨tok, user.id⟩] =
      db.sessions ++ [⟨tok, user.id⟩]
    rw [hfilter]
  have husers : (login prf tok db pl).2.users = db.users := by
    rw [hlogin]
    rfl
  refine ⟨hsess, husers, ?_, ?_⟩
  · intro t htne
    by_cases ht : t = ""
    · simp [load_user, ht]
    · have hnew : (([⟨tok, user.id⟩] : List Session).find?
          (fun s => s.token = t)) = none := by
        rw [List.find?_eq_none]
        intro s hs
        simp only [List.mem_singleton] at hs
        subst hs
        simp only [decide_eq_true_eq]
        exact fun h => htne h.symm
      have hfindeq : (login prf tok db pl).2.sessions.find?
          (fun s => s.token = t) =
            db.sessions.find? (fun s => s.token = t) := by
        rw [hsess, List.find?_append, hnew]
        cases db.sessions.find? (fun s => s.token = t) <;> rfl
      simp only [load_user, if_neg ht]
      rw [hfindeq, husers]
  · have hold : db.sessions.find? (fun s => s.token = tok) = none := by
      rw [List.find?_eq_none]
      intro s hs
      simp only [decide_eq_true_eq]
      exact hfresh s hs
    have hone : (([⟨tok, user.id⟩] : List Session).find?
        (fun s => s.token = tok)) = some ⟨tok, user.id⟩ := by
      simp [List.find?]
    simp only [load_user, if_neg htokne]
    rw [hsess, List.find?_append, hold, hone, husers]
    rfl

/-- C9 witness: a second login appends a session and keeps the prior
session row. -/
theorem C9_witness :
    (login samplePrf "newtoken"
      (⟨[⟨1, "alice", hash_password samplePrf [] "secret1",
          "2024-01-01 00:00:00"⟩], [⟨"oldtoken", 1⟩], 2⟩ : DB)
      (credPayload "alice" "secret1")).2.sessions =
      [⟨"oldtoken", 1⟩, ⟨"newtoken", 1⟩] :=
  (C9_login_appends_session samplePrf "newtoken"
    ⟨[⟨1, "alice", hash_password samplePrf [] "secret1",
        "2024-01-01 00:00:00"⟩], [⟨"oldtoken", 1⟩], 2⟩
    (credPayload "alice" "secret1") "alice" "secret1"
    ⟨1, "alice", hash_password samplePrf [] "secret1",
        "2024-01-01 00:00:00"⟩
    rfl (by decide) rfl (by decide) (by decide)).1

/-- C10: when the username's trimmed form is empty and the password is
also too short, validation reports the empty-username failure — the
username check runs before the password-length check. -/
theorem C10_username_check_first (pl : Payload) (u pw : String)
    (hu : usernameCoercesTo pl u) (hue : u = "")
    (hp : passwordCoercesTo pl pw) (_hlen : pw.length < 6) :
    validate_credentials pl = .error "用户名不能为空" :=
  validate_empty_username pl u pw hu hue hp

/-- C10 witness: a whitespace-only username with a three-character
password fails with the empty-username error, not the weak-password
one. -/
theorem C10_witness :
    validate_credentials
      [("username", .str "   "), ("password", .str "123")] =
      .error "用户名不能为空" :=
  C10_username_check_first _ "" "123"
    (Or.inr ⟨"   ", rfl, by decide⟩) rfl (Or.inr rfl) (by decide)

end AuthService
